import Mathlib

set_option maxRecDepth 8000

/-!
Verification of the conversation-memory and tool-dispatch core of the
vynexa-ai repository, as a shallow embedding in Lean.

The embedding follows `src/ai/memory_manager.py` (class `MemoryManager`) and
`src/ai/tool_manager.py` (class `ToolManager`).  External effects are made
explicit: the SQLite table of conversation rows and the Chroma collection
become fields of an explicit `MemStore` state, `datetime.now()` becomes a
`PyDate` parameter, the Chroma query becomes an oracle function from the
requested result count to a reply (or a raised exception, modelled as
`Except.error`), and Python exceptions raised by tool bodies are modelled as
`Except.error` values.  Python strings are Lean `String`s (both measure length
in characters), and Python numbers reached by the calculator are modelled by
unnormalized fractions over `Int`.
-/

/-! ### Dates (the fragment of Python `datetime` used by the code) -/

/-- Calendar date; the time-of-day component carried by Python `datetime` is
never compared at sub-day granularity by the embedded code, so it is omitted. -/
structure PyDate where
  year : Nat
  month : Nat
  day : Nat
deriving DecidableEq, Repr

def isLeapYear (y : Nat) : Bool :=
  (y % 4 = 0 && y % 100 ≠ 0) || y % 400 = 0

def daysInMonth (y m : Nat) : Nat :=
  if m = 2 then (if isLeapYear y then 29 else 28)
  else if m = 4 ∨ m = 6 ∨ m = 9 ∨ m = 11 then 30
  else 31

/-- Python `datetime.replace(day=d)`: raises `ValueError` when `d` is outside
the valid day range of the (unchanged) month. -/
def replace_day (d : PyDate) (newDay : Int) : Except String PyDate :=
  if 1 ≤ newDay ∧ newDay ≤ (daysInMonth d.year d.month : Int) then
    .ok { d with day := newDay.toNat }
  else
    .error "ValueError: day is out of range for month"

/-- Strict chronological order on dates; SQLite compares the stored ISO
datetime strings lexicographically, which on the date fields is exactly this
lexicographic order. -/
def dateLtB (a b : PyDate) : Bool :=
  decide (a.year < b.year) ||
    (decide (a.year = b.year) &&
      (decide (a.month < b.month) ||
        (decide (a.month = b.month) && decide (a.day < b.day))))

def dateLeB (a b : PyDate) : Bool :=
  dateLtB a b || decide (a = b)

/-! ### Structured store and semantic collection state -/

/-- One row of the SQLite `conversations` table. -/
structure ConvRow where
  id : Nat
  user_message : String
  assistant_response : String
  timestamp : PyDate
  session_id : Option String
  metadata : String
deriving DecidableEq, Repr

/-- One record of the Chroma `conversation_memory` collection, as written by
`store_interaction`. -/
structure SemRecord where
  recId : String
  document : String
  turnId : Nat
  timestamp : PyDate
  session_id : String
deriving DecidableEq, Repr

/-- The persistent state owned by `MemoryManager`: the SQLite rows (with the
next rowid to be assigned; SQLite rowids start at 1) and the Chroma
collection. -/
structure MemStore where
  rows : List ConvRow
  nextId : Nat
  collection : List SemRecord
deriving DecidableEq, Repr

def emptyStore : MemStore := { rows := [], nextId := 1, collection := [] }

/-! ### MemoryManager.store_interaction -/

/-- `MemoryManager.store_interaction`: inserts a row into the `conversations`
table with the current timestamp, then adds the combined text to the Chroma
collection keyed `interaction_<id>` with session tag `session_id or
"default"`.  The Python function body contains no `return` statement, so the
value handed back to the caller is `None`; the pair returned here is
(updated store, value returned to the caller).  `metadata` is the
`json.dumps(metadata or {})` serialization, taken as an opaque string. -/
def store_interaction (st : MemStore) (now : PyDate)
    (user_message assistant_response : String)
    (session_id : Option String) (metadata : Option String) :
    MemStore × Option Nat :=
  let metadata_json := metadata.getD "\x7b\x7d"
  let interaction_id := st.nextId
  let row : ConvRow :=
    ⟨interaction_id, user_message, assistant_response, now, session_id, metadata_json⟩
  let combined_text := "User: " ++ user_message ++ "\nAssistant: " ++ assistant_response
  let semRec : SemRecord :=
    ⟨"interaction_" ++ toString interaction_id, combined_text, interaction_id, now,
      session_id.getD "default"⟩
  ({ rows := st.rows ++ [row], nextId := interaction_id + 1,
     collection := st.collection ++ [semRec] }, none)

/-- `store_interaction` as seen through the fallible SQLite boundary: the
outcome of the `INSERT` is a parameter, and the function body contains no
exception handler, so a raised write error reaches the caller unchanged. -/
def store_interactionDb (write : Except String Unit) (st : MemStore) (now : PyDate)
    (user_message assistant_response : String)
    (session_id : Option String) (metadata : Option String) :
    Except String (MemStore × Option Nat) :=
  match write with
  | .error e => .error e
  | .ok _ => .ok (store_interaction st now user_message assistant_response session_id metadata)

/-! ### Session queries (`SELECT ... WHERE session_id = ? ORDER BY timestamp DESC`) -/

/-- SQL equality filter `WHERE session_id = ?`.  Under SQL three-valued logic a
comparison with `NULL` on either side is not true, so a row stored with a
`NULL` session (Python `session_id=None`) is excluded by every such query. -/
def matchesSession (q : Option String) (r : ConvRow) : Bool :=
  match r.session_id, q with
  | some s, some t => decide (s = t)
  | _, _ => false

/-- `ORDER BY timestamp DESC` over the filtered rows. -/
def fetchSessionDesc (st : MemStore) (q : Option String) : List ConvRow :=
  List.insertionSort (fun r1 r2 => dateLeB r2.timestamp r1.timestamp = true)
    (st.rows.filter (matchesSession q))

/-! ### MemoryManager.get_conversation_context -/

/-- One `{"role": ..., "content": ...}` message dict. -/
structure Msg where
  role : String
  content : String
deriving DecidableEq, Repr

/-- The accumulation loop of `get_conversation_context`: walks the rows
newest-first, keeps a running character total, and `break`s at the first turn
whose combined length would push the total past `max_tokens`. -/
def contextLoop (max_tokens : Nat) :
    List (String × String) → Nat → List Msg → List Msg
  | [], _, context => context
  | (user_msg, assistant_msg) :: rest, total_length, context =>
    let msg_length := user_msg.length + assistant_msg.length
    if max_tokens < total_length + msg_length then context
    else
      contextLoop max_tokens rest (total_length + msg_length)
        (context ++ [⟨"user", user_msg⟩, ⟨"assistant", assistant_msg⟩])

/-- The body of `get_conversation_context` applied to the fetched
(user, assistant) pairs: run the loop, then `list(reversed(context))`. -/
def contextFromRows (convs : List (String × String)) (max_tokens : Nat) : List Msg :=
  (contextLoop max_tokens convs 0 []).reverse

/-- The (user, assistant) text pairs of a session, newest-first, as fetched by
`get_conversation_context`. -/
def sessionPairs (st : MemStore) (session_id : String) : List (String × String) :=
  (fetchSessionDesc st (some session_id)).map fun r => (r.user_message, r.assistant_response)

/-- `MemoryManager.get_conversation_context`. -/
def get_conversation_context (st : MemStore) (session_id : String) (max_tokens : Nat) :
    List Msg :=
  contextFromRows (sessionPairs st session_id) max_tokens

/-- Modelled from the spec: the greedy newest-first turn selection described
for `buildContext` — accumulate turns while the running character total stays
at or under the budget, and stop at the first turn that would exceed it (that
turn and all older ones are excluded). -/
def greedyTake (max_tokens : Nat) :
    List (String × String) → Nat → List (String × String)
  | [], _ => []
  | (u, a) :: rest, total =>
    if max_tokens < total + (u.length + a.length) then []
    else (u, a) :: greedyTake max_tokens rest (total + (u.length + a.length))

/-- Summed content length of a message list. -/
def msgSum (l : List Msg) : Nat := (l.map fun m => m.content.length).sum

/-- Summed character count of (user, assistant) pairs. -/
def pairSum (l : List (String × String)) : Nat :=
  (l.map fun p => p.1.length + p.2.length).sum

/-! ### MemoryManager.summarize_conversation_history -/

/-- The two bullet lines rendered per recent turn; note the ellipsis is part
of the f-string and is appended unconditionally. -/
def bulletPair (user_msg assistant_msg : String) : List String :=
  ["- User asked about: " ++ user_msg.take 100 ++ "...",
   "  Assistant helped with: " ++ assistant_msg.take 100 ++ "..."]

/-- `MemoryManager.summarize_conversation_history`: fetch at most 20 most
recent turns of the session; return the fixed sentinel when there are none,
else join the header and the bullet pairs of the 5 most recent with
newlines. -/
def summarize_conversation_history (st : MemStore) (session_id : String) : String :=
  let conversations := (fetchSessionDesc st (some session_id)).take 20
  if conversations.isEmpty then "No conversation history available."
  else
    String.intercalate "\n"
      ("Recent conversation summary:" ::
        (conversations.take 5).flatMap fun r =>
          bulletPair r.user_message r.assistant_response)

/-! ### MemoryManager.cleanup_old_memories -/

/-- `MemoryManager.cleanup_old_memories`: computes
`datetime.now().replace(day=datetime.now().day - days_to_keep)` — a
day-of-month replacement, not a date subtraction — then deletes rows with
`timestamp < cutoff`.  A `ValueError` raised by `replace` propagates. -/
def cleanup_old_memories (st : MemStore) (now : PyDate) (days_to_keep : Nat) :
    Except String MemStore :=
  match replace_day now ((now.day : Int) - (days_to_keep : Int)) with
  | .error e => .error e
  | .ok cutoff_date =>
    .ok { st with rows := st.rows.filter fun r => !(dateLtB r.timestamp cutoff_date) }

/-! ### MemoryManager.retrieve_memories -/

/-- The metadata dict attached to one Chroma query hit; the code reads it
with `.get`, which yields `None` for an absent key. -/
structure MetaRec where
  id : Option Nat
  timestamp : Option String
deriving DecidableEq, Repr

/-- One Chroma query reply, already unwrapped to the single-query inner lists:
`documents` / `distances` are `none` when the corresponding outer list is
falsy in the Python truth test, and Python floats are modelled as rationals. -/
structure QueryReply where
  documents : Option (List String)
  distances : Option (List ℚ)
  metadatas : List MetaRec
deriving DecidableEq

/-- One memory record returned by `retrieve_memories`. -/
structure MemoryRec where
  content : String
  similarity : ℚ
  timestamp : Option String
  id : Option Nat
deriving DecidableEq

/-- The distance read for hit `i`: `distances[0][i]` when `distances` is
truthy, else the literal `0`; an out-of-range list access raises
`IndexError`, modelled as `none`. -/
def distAt (results : QueryReply) (i : Nat) : Option ℚ :=
  match results.distances with
  | none => some 0
  | some ds => ds[i]?

/-- The result-building loop of `retrieve_memories`: for each document at
index `i`, read its distance, convert to `similarity = 1 - distance`, and
keep the hit when the similarity reaches the threshold.  A raised
`IndexError` (`none` from `distAt` or the metadata read) aborts the loop; the
surrounding `except` then turns it into an empty result. -/
def collectLoop (results : QueryReply) (similarity_threshold : ℚ) :
    List String → Nat → Option (List MemoryRec)
  | [], _ => some []
  | doc :: rest, i =>
    match distAt results i with
    | none => none
    | some distance =>
      let similarity := 1 - distance
      if similarity_threshold ≤ similarity then
        match results.metadatas[i]? with
        | none => none
        | some metadata =>
          match collectLoop results similarity_threshold rest (i + 1) with
          | none => none
          | some memories =>
            some (⟨doc, similarity, metadata.timestamp, metadata.id⟩ :: memories)
      else collectLoop results similarity_threshold rest (i + 1)

/-- `MemoryManager.retrieve_memories`: queries the collection with
`n_results=limit` (the index is the oracle `collection_query`, which may raise),
then filters by similarity.  Any exception — a raised query or an index error
while reading the reply — is caught and an empty list is returned. -/
def retrieve_memories (collection_query : Nat → Except String QueryReply)
    (limit : Nat) (similarity_threshold : ℚ) : List MemoryRec :=
  match collection_query limit with
  | .error _ => []
  | .ok results =>
    match results.documents with
    | none => []
    | some docs =>
      match collectLoop results similarity_threshold docs 0 with
      | none => []
      | some memories => memories

/-! ### ToolManager: numbers, tokenizer, and arithmetic evaluator for `eval` -/

/-- Python numbers reached by the sanitized calculator input, kept as
unnormalized fractions so every operation is plain `Int` arithmetic
(`den = 1` exactly for results Python would print as an `int`; the decimal
formatting Python applies to non-integer floats is not needed by any claim
and is rendered as `num/den`). -/
structure PyNum where
  num : Int
  den : Int
deriving DecidableEq, Repr

def pyAdd (a b : PyNum) : PyNum := ⟨a.num * b.den + b.num * a.den, a.den * b.den⟩

def pySub (a b : PyNum) : PyNum := ⟨a.num * b.den - b.num * a.den, a.den * b.den⟩

def pyMul (a b : PyNum) : PyNum := ⟨a.num * b.num, a.den * b.den⟩

def pyNeg (a : PyNum) : PyNum := ⟨-a.num, a.den⟩

/-- Python `/`; raises `ZeroDivisionError` (whose `str` is
"division by zero") on a zero divisor. -/
def pyDiv (a b : PyNum) : Except String PyNum :=
  if b.num = 0 then .error "division by zero"
  else .ok ⟨a.num * b.den, a.den * b.num⟩

def renderNum (v : PyNum) : String :=
  if v.den = 1 then toString v.num else toString v.num ++ "/" ++ toString v.den

inductive Tok where
  | num (v : PyNum)
  | plus
  | minus
  | star
  | slash
  | lparen
  | rparen
deriving DecidableEq, Repr

def spanDigits (l : List Char) : List Char × List Char :=
  (l.takeWhile Char.isDigit, l.dropWhile Char.isDigit)

def digitsVal (ds : List Char) : Nat :=
  ds.foldl (fun acc c => acc * 10 + (c.toNat - '0'.toNat)) 0

/-- Reads one numeric literal (`digits`, `digits.digits`, `.digits`, or
`digits.`); anything else is a syntax error, as in CPython. -/
def readNumber (l : List Char) : Except String (PyNum × List Char) :=
  let (ip, r1) := spanDigits l
  match r1 with
  | '.' :: r2 =>
    let (fp, r3) := spanDigits r2
    if ip.isEmpty && fp.isEmpty then .error "invalid syntax"
    else .ok (⟨(digitsVal ip : Int) * 10 ^ fp.length + digitsVal fp, (10 : Int) ^ fp.length⟩, r3)
  | _ =>
    if ip.isEmpty then .error "invalid syntax"
    else .ok (⟨(digitsVal ip : Int), 1⟩, r1)

/-- Tokenizer over the sanitized character set; `fuel` bounds the recursion
(every step consumes at least one character). -/
def tokenizeF : Nat → List Char → Except String (List Tok)
  | _, [] => .ok []
  | 0, _ => .error "invalid syntax"
  | fuel + 1, c :: cs =>
    if c = ' ' then tokenizeF fuel cs
    else if c = '+' then (tokenizeF fuel cs).map (Tok.plus :: ·)
    else if c = '-' then (tokenizeF fuel cs).map (Tok.minus :: ·)
    else if c = '*' then (tokenizeF fuel cs).map (Tok.star :: ·)
    else if c = '/' then (tokenizeF fuel cs).map (Tok.slash :: ·)
    else if c = '(' then (tokenizeF fuel cs).map (Tok.lparen :: ·)
    else if c = ')' then (tokenizeF fuel cs).map (Tok.rparen :: ·)
    else if c.isDigit || c = '.' then
      match readNumber (c :: cs) with
      | .error e => .error e
      | .ok (v, rest) => (tokenizeF fuel rest).map (Tok.num v :: ·)
    else .error "invalid syntax"

mutual

/-- Grammar rule: expr is a term followed by any number of plus-term or minus-term steps; fuel-bounded recursive descent. -/
def parseExprF : Nat → List Tok → Except String (PyNum × List Tok)
  | 0, _ => .error "invalid syntax"
  | fuel + 1, ts =>
    match parseTermF fuel ts with
    | .error e => .error e
    | .ok (v, r) => parseExprLoop fuel v r

def parseExprLoop : Nat → PyNum → List Tok → Except String (PyNum × List Tok)
  | 0, _, _ => .error "invalid syntax"
  | fuel + 1, acc, Tok.plus :: ts =>
    match parseTermF fuel ts with
    | .error e => .error e
    | .ok (v, r) => parseExprLoop fuel (pyAdd acc v) r
  | fuel + 1, acc, Tok.minus :: ts =>
    match parseTermF fuel ts with
    | .error e => .error e
    | .ok (v, r) => parseExprLoop fuel (pySub acc v) r
  | _ + 1, acc, ts => .ok (acc, ts)

/-- Grammar rule: term is a factor followed by any number of times-factor or divide-factor steps. -/
def parseTermF : Nat → List Tok → Except String (PyNum × List Tok)
  | 0, _ => .error "invalid syntax"
  | fuel + 1, ts =>
    match parseFactorF fuel ts with
    | .error e => .error e
    | .ok (v, r) => parseTermLoop fuel v r

def parseTermLoop : Nat → PyNum → List Tok → Except String (PyNum × List Tok)
  | 0, _, _ => .error "invalid syntax"
  | fuel + 1, acc, Tok.star :: ts =>
    match parseFactorF fuel ts with
    | .error e => .error e
    | .ok (v, r) => parseTermLoop fuel (pyMul acc v) r
  | fuel + 1, acc, Tok.slash :: ts =>
    match parseFactorF fuel ts with
    | .error e => .error e
    | .ok (v, r) =>
      match pyDiv acc v with
      | .error e => .error e
      | .ok q => parseTermLoop fuel q r
  | _ + 1, acc, ts => .ok (acc, ts)

/-- Grammar rule: factor is a number, a sign applied to a factor, or a parenthesized expr. -/
def parseFactorF : Nat → List Tok → Except String (PyNum × List Tok)
  | 0, _ => .error "invalid syntax"
  | _ + 1, Tok.num v :: ts => .ok (v, ts)
  | fuel + 1, Tok.minus :: ts =>
    match parseFactorF fuel ts with
    | .error e => .error e
    | .ok (v, r) => .ok (pyNeg v, r)
  | fuel + 1, Tok.plus :: ts => parseFactorF fuel ts
  | fuel + 1, Tok.lparen :: ts =>
    match parseExprF fuel ts with
    | .error e => .error e
    | .ok (v, r) =>
      match r with
      | Tok.rparen :: r2 => .ok (v, r2)
      | _ => .error "invalid syntax"
  | _ + 1, _ => .error "invalid syntax"

end

/-- Python `eval` restricted to the character set that survives the
the sanitization step of the calculator: tokenize, parse the arithmetic grammar, and demand
that the whole token stream is consumed.  Failures model the `SyntaxError` /
`ZeroDivisionError` exceptions `eval` raises on such input. -/
def pyEval (s : String) : Except String PyNum :=
  match tokenizeF (s.length + 1) s.data with
  | .error e => .error e
  | .ok ts =>
    match parseExprF (3 * ts.length + 3) ts with
    | .error e => .error e
    | .ok (v, r) => if r.isEmpty then .ok v else .error "invalid syntax"

/-! ### ToolManager registry and dispatch -/

/-- The character whitelist of `ToolManager._calculator`: the re.sub call with
pattern `[^0-9+\-*/.() ]` and empty replacement keeps exactly these. -/
def isSafeChar (c : Char) : Bool :=
  c.isDigit || c = '+' || c = '-' || c = '*' || c = '/' || c = '.' ||
    c = '(' || c = ')' || c = ' '

/-- The sanitization step of `_calculator`. -/
def sanitize_expression (expression : String) : String :=
  String.mk (expression.data.filter isSafeChar)

/-- `ToolManager._calculator`: sanitize, evaluate, format; the internal
`try`/`except` converts every evaluation failure into a normally returned
"Calculation error" string, so the tool body itself never raises. -/
def _calculator (expression : String) : Except String String :=
  .ok (match pyEval (sanitize_expression expression) with
    | .ok result => "Calculation: " ++ expression ++ " = " ++ renderNum result
    | .error e => "Calculation error: " ++ e)

/-- One registry entry of `ToolManager.tools`; a tool body is a function from
its argument to the returned string, with `Except.error` modelling a raised
exception. -/
structure Tool where
  run : String → Except String String
  description : String
  enabled : Bool

/-- The result dict of `ToolManager.execute_tool`:
`{"success": True, "result": ...}` or `{"error": ...}`. -/
inductive ToolResult where
  | success (result : String)
  | error (msg : String)
deriving DecidableEq, Repr

/-- `ToolManager.execute_tool`: unknown name, disabled tool, and a raised tool
body each produce a structured error result; the dispatcher itself always
returns a `ToolResult` and never propagates an exception. -/
def execute_tool (tools : List (String × Tool)) (tool_name : String) (arg : String) :
    ToolResult :=
  match tools.lookup tool_name with
  | none => .error ("Tool \x27" ++ tool_name ++ "\x27 not found")
  | some t =>
    if !t.enabled then .error ("Tool \x27" ++ tool_name ++ "\x27 is disabled")
    else
      match t.run arg with
      | .ok result => .success result
      | .error e => .error ("Tool execution failed: " ++ e)

/-- The registry built by `_register_builtin_tools` under the default
configuration: `enabled_tools` lists web_search, calculator and
file_operations, so the other three are registered but disabled.  The
bodies of the tools other than the calculator perform I/O or return mock
strings and are irrelevant to the claims, so they are parameters. -/
def builtin_tools
    (web_search file_operations code_executor weather date_time :
      String → Except String String) : List (String × Tool) :=
  [("web_search", ⟨web_search, "Search the web for current information", true⟩),
   ("calculator", ⟨_calculator, "Perform mathematical calculations", true⟩),
   ("file_operations", ⟨file_operations, "Read, write, and manage files", true⟩),
   ("code_executor", ⟨code_executor, "Execute Python code in a safe environment", false⟩),
   ("weather", ⟨weather, "Get current weather information", false⟩),
   ("datetime", ⟨date_time, "Get current date and time information", false⟩)]

/-- A substring occurrence. -/
def containsStr (s sub : String) : Prop := ∃ a b, s = a ++ sub ++ b


/-! ### Helper definitions for the statements and proofs -/

/-- The two message dicts one turn contributes to the context, in the order
the loop appends them. -/
def turnMsgs (p : String × String) : List Msg :=
  [⟨"user", p.1⟩, ⟨"assistant", p.2⟩]

/-- The similarity score `retrieve_memories` computes for the hit at index
`j` of a reply, when that index is readable. -/
def simAt (r : QueryReply) (j : Nat) : Option ℚ :=
  (distAt r j).map fun d => 1 - d

/-- Non-increasing similarity, the order required of the output. -/
def simGe (m1 m2 : MemoryRec) : Prop := m2.similarity ≤ m1.similarity

/-- A tool body that returns an empty string and never raises; stands in for
the mock tool bodies in concrete instantiations. -/
def okStub : String → Except String String := fun _ => .ok ""

/-- The default registry with all mock bodies instantiated by `okStub`. -/
def defaultTools : List (String × Tool) :=
  builtin_tools okStub okStub okStub okStub okStub

/-- A one-tool registry whose body always raises. -/
def boomTool : List (String × Tool) :=
  [("boom", ⟨fun _ => .error "boom", "always raises", true⟩)]

/-- A concrete single-hit index reply used to instantiate the retrieval
theorems. -/
def cqWit : Nat → Except String QueryReply := fun _ =>
  .ok { documents := some ["User: hi\nAssistant: there"],
        distances := some [0],
        metadatas := [⟨some 1, some "2026-10-12"⟩] }

/-! ### Lemmas about the context-assembly loop -/

theorem contextLoop_eq (max_tokens : Nat) (convs : List (String × String)) :
    ∀ (total : Nat) (ctx : List Msg),
      contextLoop max_tokens convs total ctx
        = ctx ++ (greedyTake max_tokens convs total).flatMap turnMsgs := by
  induction convs with
  | nil => intro total ctx; simp [contextLoop, greedyTake]
  | cons p rest ih =>
    intro total ctx
    obtain ⟨u, a⟩ := p
    simp only [contextLoop, greedyTake]
    split
    · simp
    · rw [ih]
      simp [turnMsgs, List.flatMap_cons, List.append_assoc]

theorem reverse_flatMap_turnMsgs (l : List (String × String)) :
    (l.flatMap turnMsgs).reverse
      = l.reverse.flatMap fun p => [⟨"assistant", p.2⟩, ⟨"user", p.1⟩] := by
  induction l with
  | nil => simp
  | cons p rest ih =>
    simp only [List.flatMap_cons, List.reverse_append, ih, List.reverse_cons,
      List.flatMap_append]
    rfl

theorem msgSum_reverse (l : List Msg) : msgSum l.reverse = msgSum l := by
  simp [msgSum, List.map_reverse, List.sum_reverse]

theorem msgSum_flatMap_turnMsgs (l : List (String × String)) :
    msgSum (l.flatMap turnMsgs) = pairSum l := by
  induction l with
  | nil => simp [msgSum, pairSum]
  | cons p rest ih =>
    simp only [List.flatMap_cons, msgSum, pairSum, List.map_append, List.sum_append,
      turnMsgs] at *
    simp [ih]
    try ring
    try omega

theorem greedyTake_budget (max_tokens : Nat) (convs : List (String × String)) :
    ∀ total, total ≤ max_tokens →
      total + pairSum (greedyTake max_tokens convs total) ≤ max_tokens := by
  induction convs with
  | nil => intro total h; simpa [greedyTake, pairSum]
  | cons p rest ih =>
    intro total h
    obtain ⟨u, a⟩ := p
    simp only [greedyTake]
    split
    · simpa [pairSum]
    · rename_i hc
      have hle : total + (u.length + a.length) ≤ max_tokens := Nat.not_lt.mp hc
      have := ih (total + (u.length + a.length)) hle
      simp only [pairSum, List.map_cons, List.sum_cons] at this ⊢
      omega

theorem greedyTake_append (max_tokens : Nat) (convs : List (String × String)) :
    ∀ total, ∃ t, convs = greedyTake max_tokens convs total ++ t := by
  induction convs with
  | nil => intro total; exact ⟨[], rfl⟩
  | cons p rest ih =>
    intro total
    obtain ⟨u, a⟩ := p
    simp only [greedyTake]
    split
    · exact ⟨(u, a) :: rest, rfl⟩
    · obtain ⟨t, ht⟩ := ih (total + (u.length + a.length))
      exact ⟨t, by rw [List.cons_append, ← ht]⟩

/-! ### Lemmas about the retrieval loop -/

theorem distAt_mono (r : QueryReply)
    (hs : ∀ ds, r.distances = some ds → List.Sorted (· ≤ ·) ds)
    {i j : Nat} {di dj : ℚ} (hij : i ≤ j)
    (hdi : distAt r i = some di) (hdj : distAt r j = some dj) : di ≤ dj := by
  unfold distAt at hdi hdj
  rcases hds : r.distances with _ | ds <;> rw [hds] at hdi hdj
  · simp only [Option.some.injEq] at hdi hdj
    rw [← hdi, ← hdj]
  · obtain ⟨hjlt, hdj'⟩ := List.getElem?_eq_some.mp hdj
    obtain ⟨hilt, hdi'⟩ := List.getElem?_eq_some.mp hdi
    have := (hs ds hds).rel_get_of_le (a := ⟨i, hilt⟩) (b := ⟨j, hjlt⟩) (by simpa using hij)
    simpa [List.get_eq_getElem, hdi', hdj'] using this

theorem collectLoop_spec (r : QueryReply) (th : ℚ)
    (hs : ∀ ds, r.distances = some ds → List.Sorted (· ≤ ·) ds) :
    ∀ (docs : List String) (i : Nat) (ms : List MemoryRec),
      collectLoop r th docs i = some ms →
      ms.length ≤ docs.length ∧
      (∀ m ∈ ms, th ≤ m.similarity ∧ ∃ j, i ≤ j ∧ simAt r j = some m.similarity) ∧
      List.Sorted simGe ms := by
  intro docs
  induction docs with
  | nil =>
    intro i ms h
    simp only [collectLoop, Option.some.injEq] at h
    subst h
    exact ⟨by simp, by simp, List.sorted_nil⟩
  | cons doc rest ih =>
    intro i ms h
    simp only [collectLoop] at h
    rcases hdi : distAt r i with _ | di <;> rw [hdi] at h
    · exact absurd h (by simp)
    · simp only at h
      split at h
      · rename_i hth
        rcases hm : r.metadatas[i]? with _ | meta <;> rw [hm] at h
        · exact absurd h (by simp)
        · rcases hrec : collectLoop r th rest (i + 1) with _ | ms' <;> rw [hrec] at h
          · exact absurd h (by simp)
          · simp only [Option.some.injEq] at h
            subst h
            obtain ⟨hlen, hmem, hsort⟩ := ih (i + 1) ms' hrec
            refine ⟨by simpa using Nat.succ_le_succ hlen, ?_, ?_⟩
            · intro m hm'
              rcases List.mem_cons.mp hm' with rfl | hm''
              · exact ⟨hth, i, le_refl i, by simp [simAt, hdi]⟩
              · obtain ⟨h1, j, hj, h2⟩ := hmem m hm''
                exact ⟨h1, j, le_trans (Nat.le_succ i) hj, h2⟩
            · refine List.sorted_cons.mpr ⟨?_, hsort⟩
              intro b hb
              obtain ⟨-, j, hj, h2⟩ := hmem b hb
              simp only [simAt, Option.map_eq_some'] at h2
              obtain ⟨dj, hdj, hsim⟩ := h2
              have hdidj : di ≤ dj :=
                distAt_mono r hs (le_trans (Nat.le_succ i) hj) hdi hdj
              simp only [simGe, ← hsim]
              exact sub_le_sub_left hdidj 1
      · obtain ⟨hlen, hmem, hsort⟩ := ih (i + 1) ms h
        refine ⟨le_trans hlen (by simp), ?_, hsort⟩
        intro m hm'
        obtain ⟨h1, j, hj, h2⟩ := hmem m hm'
        exact ⟨h1, j, le_trans (Nat.le_succ i) hj, h2⟩

/-! ### Claim theorems -/

/-- C1: for every store, session and character budget, the message list
returned by `get_conversation_context` has summed content length at most
`max_tokens`; it is exactly the greedy newest-first selection (stopping at
the first turn that would exceed the budget) reversed into turn-chronological
order, with each included turn contributing both its user and its assistant
message; and the selected turns form a prefix of the newest-first session
rows, so the first excluded turn and all older ones are excluded. -/
theorem get_conversation_context_spec (st : MemStore) (session_id : String)
    (max_tokens : Nat) :
    msgSum (get_conversation_context st session_id max_tokens) ≤ max_tokens ∧
    get_conversation_context st session_id max_tokens
      = (greedyTake max_tokens (sessionPairs st session_id) 0).reverse.flatMap
          (fun p => [⟨"assistant", p.2⟩, ⟨"user", p.1⟩]) ∧
    ∃ t, sessionPairs st session_id
      = greedyTake max_tokens (sessionPairs st session_id) 0 ++ t := by
  refine ⟨?_, ?_, greedyTake_append max_tokens (sessionPairs st session_id) 0⟩
  · have hb := greedyTake_budget max_tokens (sessionPairs st session_id) 0 (Nat.zero_le _)
    unfold get_conversation_context contextFromRows
    rw [contextLoop_eq, List.nil_append, msgSum_reverse, msgSum_flatMap_turnMsgs]
    omega
  · unfold get_conversation_context contextFromRows
    rw [contextLoop_eq, List.nil_append]
    exact reverse_flatMap_turnMsgs _

/-- C2 (code bug): `cleanup_old_memories` does not compute `now` minus
`days_to_keep` days — it replaces the day-of-month field, which raises
`ValueError` whenever `now.day - days_to_keep` falls outside the month.  At
the default retention of 30 days, on 2026-10-12 (day-of-month 12) the sweep
raises instead of deleting old turns, for every store — in particular it
errors even when zero turns match. -/
theorem cleanup_old_memories_value_error (st : MemStore) :
    cleanup_old_memories st ⟨2026, 10, 12⟩ 30
      = .error "ValueError: day is out of range for month" := rfl

/-- C3 (counterexample): `store_interaction` assigns rowid 1 to the turn
inserted into an empty store, but the value returned to the caller is `None`,
not that turn id. -/
theorem store_interaction_returns_none :
    (store_interaction emptyStore ⟨2026, 10, 12⟩ "hi" "there" none none).2 = none ∧
    (store_interaction emptyStore ⟨2026, 10, 12⟩ "hi" "there" none none).1.rows.map
      ConvRow.id = [1] ∧
    (store_interaction emptyStore ⟨2026, 10, 12⟩ "hi" "there" none none).2 ≠ some 1 :=
  ⟨rfl, rfl, by decide⟩

/-- C3 (amended): `store_interaction` appends exactly one row carrying the
current timestamp and the given texts, returns `None` to the caller (the
assigned id is used only to key the semantic record), and a structured-store
write failure propagates to the caller unchanged. -/
theorem store_interaction_inserts_and_propagates (st : MemStore) (now : PyDate)
    (u a : String) (sid : Option String) (md : Option String) :
    (store_interaction st now u a sid md).1.rows
      = st.rows ++ [⟨st.nextId, u, a, now, sid, md.getD "\x7b\x7d"⟩] ∧
    (store_interaction st now u a sid md).2 = none ∧
    ∀ e, store_interactionDb (.error e) st now u a sid md = .error e :=
  ⟨rfl, rfl, fun _ => rfl⟩

/-- C4: `execute_tool` is total — it always returns a structured result and
never propagates an exception — with the contracted messages: an unregistered
name yields an error containing "not found", a disabled tool an error
containing "disabled", a raised tool body an error containing "execution
failed" together with the exception message, and a normal return a success
result. -/
theorem execute_tool_contract (tools : List (String × Tool)) (name arg : String) :
    (tools.lookup name = none →
      execute_tool tools name arg = .error ("Tool \x27" ++ name ++ "\x27 not found")) ∧
    (∀ t, tools.lookup name = some t → t.enabled = false →
      execute_tool tools name arg = .error ("Tool \x27" ++ name ++ "\x27 is disabled")) ∧
    (∀ t e, tools.lookup name = some t → t.enabled = true → t.run arg = .error e →
      execute_tool tools name arg = .error ("Tool execution failed: " ++ e)) ∧
    (∀ t r, tools.lookup name = some t → t.enabled = true → t.run arg = .ok r →
      execute_tool tools name arg = .success r) ∧
    ((∃ m, execute_tool tools name arg = .error m ∧
        (containsStr m "not found" ∨ containsStr m "disabled" ∨
          containsStr m "execution failed")) ∨
      (∃ r, execute_tool tools name arg = .success r)) := by
  refine ⟨?_, ?_, ?_, ?_, ?_⟩
  · intro h; simp [execute_tool, h]
  · intro t ht hdis; simp [execute_tool, ht, hdis]
  · intro t e ht hen hrun; simp [execute_tool, ht, hen, hrun]
  · intro t r ht hen hrun; simp [execute_tool, ht, hen, hrun]
  · rcases hl : tools.lookup name with _ | t
    · refine .inl ⟨"Tool \x27" ++ name ++ "\x27 not found", by simp [execute_tool, hl],
        .inl ⟨"Tool \x27" ++ name ++ "\x27 ", "", ?_⟩⟩
      simp only [String.append_assoc]
      rfl
    · rcases ht : t.enabled with _ | _
      · refine .inl ⟨"Tool \x27" ++ name ++ "\x27 is disabled",
          by simp [execute_tool, hl, ht],
          .inr (.inl ⟨"Tool \x27" ++ name ++ "\x27 is ", "", ?_⟩)⟩
        simp only [String.append_assoc]
        rfl
      · rcases hr : t.run arg with e | r
        · refine .inl ⟨"Tool execution failed: " ++ e,
            by simp [execute_tool, hl, ht, hr],
            .inr (.inr ⟨"Tool ", ": " ++ e, ?_⟩)⟩
          simp only [String.append_assoc]
          rfl
        · exact .inr ⟨r, by simp [execute_tool, hl, ht, hr]⟩

/-- C4 (witness): the contract evaluated on the default registry — an unknown
name, the registered-but-disabled weather tool, an always-raising tool, and a
successful calculator run. -/
theorem execute_tool_contract_wit :
    execute_tool defaultTools "nonexistent_tool" ""
      = .error "Tool \x27nonexistent_tool\x27 not found" ∧
    execute_tool defaultTools "weather" "Paris"
      = .error "Tool \x27weather\x27 is disabled" ∧
    execute_tool boomTool "boom" "" = .error "Tool execution failed: boom" ∧
    execute_tool defaultTools "calculator" "2 + 3"
      = .success "Calculation: 2 + 3 = 5" := by
  refine ⟨?_, ?_, ?_, ?_⟩
  · exact (execute_tool_contract defaultTools "nonexistent_tool" "").1 rfl
  · exact (execute_tool_contract defaultTools "weather" "Paris").2.1 _ rfl rfl
  · exact (execute_tool_contract boomTool "boom" "").2.2.1 _ "boom" rfl rfl rfl
  · exact (execute_tool_contract defaultTools "calculator" "2 + 3").2.2.2.1 _
      "Calculation: 2 + 3 = 5" rfl rfl rfl

/-- C6: when the semantic-index query raises (any exception message), the
memory retrieval returns the empty list — the caller receives an empty memory
set, never an error. -/
theorem retrieve_memories_index_failure (cq : Nat → Except String QueryReply)
    (limit : Nat) (th : ℚ) (e : String) (h : cq limit = .error e) :
    retrieve_memories cq limit th = [] := by
  simp [retrieve_memories, h]

/-- C6 (witness): an index whose query raises "index unavailable" yields the
empty memory set at the default limit and threshold. -/
theorem retrieve_memories_index_failure_wit :
    retrieve_memories (fun _ => .error "index unavailable") 5 (7 / 10) = [] :=
  retrieve_memories_index_failure _ 5 (7 / 10) "index unavailable" rfl

/-- C5: under the index contract — at most `limit` hits returned for
`n_results=limit` and distances listed in non-decreasing order — the records
returned by `retrieve_memories` number at most `limit`, every one has
similarity (1 minus the cosine distance) at least the threshold, and they
appear in non-increasing order of similarity. -/
theorem retrieve_memories_spec (cq : Nat → Except String QueryReply)
    (limit : Nat) (th : ℚ)
    (hlen : ∀ r docs, cq limit = .ok r → r.documents = some docs → docs.length ≤ limit)
    (hsorted : ∀ r ds, cq limit = .ok r → r.distances = some ds →
      List.Sorted (· ≤ ·) ds) :
    (retrieve_memories cq limit th).length ≤ limit ∧
    (∀ m ∈ retrieve_memories cq limit th, th ≤ m.similarity) ∧
    List.Sorted simGe (retrieve_memories cq limit th) := by
  unfold retrieve_memories
  rcases hq : cq limit with e | r
  · simp
  · rcases hdoc : r.documents with _ | docs
    · simp [hdoc]
    · rcases hc : collectLoop r th docs 0 with _ | ms
      · simp [hdoc, hc]
      · obtain ⟨h1, h2, h3⟩ :=
          collectLoop_spec r th (fun ds hds => hsorted r ds hq hds) docs 0 ms hc
        simp only [hdoc, hc]
        exact ⟨le_trans h1 (hlen r docs hq hdoc), fun m hm => (h2 m hm).1, h3⟩

/-- C5 (witness): the contract applied to a concrete single-hit reply at the
default limit and threshold. -/
theorem retrieve_memories_spec_wit :
    (retrieve_memories cqWit 5 (7 / 10)).length ≤ 5 :=
  (retrieve_memories_spec cqWit 5 (7 / 10)
    (by intro r docs h1 h2; injection h1 with h; subst h; injection h2 with h2; subst h2; decide)
    (by intro r ds h1 h2; injection h1 with h; subst h; injection h2 with h2; subst h2; decide)).1

/-- C7: the calculator strips every character outside the whitelist before
any evaluation — the evaluator only ever sees sanitized text — a plain
arithmetic input succeeds ("2 + 3" gives a success result whose text contains
"5"), and "import os" is sanitized down to a single space, which fails to
evaluate and is reported as an evaluation error instead of executing
anything. -/
theorem calculator_sanitize_then_eval (expression : String)
    (w f c d t : String → Except String String) :
    (sanitize_expression expression).data.all isSafeChar = true ∧
    _calculator expression
      = .ok (match pyEval (sanitize_expression expression) with
          | .ok result => "Calculation: " ++ expression ++ " = " ++ renderNum result
          | .error e => "Calculation error: " ++ e) ∧
    execute_tool (builtin_tools w f c d t) "calculator" "2 + 3"
      = .success "Calculation: 2 + 3 = 5" ∧
    containsStr "Calculation: 2 + 3 = 5" "5" ∧
    sanitize_expression "import os" = " " ∧
    pyEval " " = .error "invalid syntax" ∧
    execute_tool (builtin_tools w f c d t) "calculator" "import os"
      = .success ("Calculation error: " ++ "invalid syntax") := by
  refine ⟨?_, rfl, rfl, ⟨"Calculation: 2 + 3 = ", "", rfl⟩, rfl, rfl, rfl⟩
  rw [List.all_eq_true]
  intro x hx
  exact (List.mem_filter.mp hx).2

/-- C8 (counterexample): a turn stored without a session id is written with a
NULL session in the SQLite table (only the semantic record is tagged
"default"), so fetching the turns of the "default" session — or of the NULL
parameter itself — returns nothing: the stored turn is not retrievable
there. -/
theorem store_without_session_not_fetched :
    fetchSessionDesc (store_interaction emptyStore ⟨2026, 10, 12⟩ "hi" "there" none none).1
      (some "default") = [] ∧
    fetchSessionDesc (store_interaction emptyStore ⟨2026, 10, 12⟩ "hi" "there" none none).1
      none = [] ∧
    (store_interaction emptyStore ⟨2026, 10, 12⟩ "hi" "there" none none).1.collection.map
      SemRecord.session_id = ["default"] ∧
    (store_interaction emptyStore ⟨2026, 10, 12⟩ "hi" "there" none none).1.rows.map
      ConvRow.session_id = [none] :=
  ⟨rfl, rfl, rfl, rfl⟩

/-- C8 (amended): a turn stored with an explicit session id round-trips — the
session fetch includes a row whose user and assistant texts are identical to
what was stored. -/
theorem store_then_fetch_includes_turn (st : MemStore) (now : PyDate)
    (u a sid : String) (md : Option String) :
    ∃ r ∈ fetchSessionDesc (store_interaction st now u a (some sid) md).1 (some sid),
      r.user_message = u ∧ r.assistant_response = a := by
  refine ⟨⟨st.nextId, u, a, now, some sid, md.getD "\x7b\x7d"⟩, ?_, rfl, rfl⟩
  unfold fetchSessionDesc
  rw [(List.perm_insertionSort _ _).mem_iff]
  refine List.mem_filter.mpr ⟨?_, by simp [matchesSession]⟩
  exact List.mem_append_right _ (List.mem_singleton.mpr rfl)

/-- C9 (counterexample): for a session holding one short turn ("hi"/"there",
both far below 100 characters), the digest still carries the ellipsis marker
after each excerpt — the marker is appended unconditionally, not only when
the text exceeds the preview length. -/
theorem summarize_appends_ellipsis_always :
    ("hi".length ≤ 100 ∧ "there".length ≤ 100) ∧
    summarize_conversation_history
        (store_interaction emptyStore ⟨2026, 10, 12⟩ "hi" "there" (some "s") none).1 "s"
      = "Recent conversation summary:\n- User asked about: hi...\n  Assistant helped with: there..." ∧
    summarize_conversation_history
        (store_interaction emptyStore ⟨2026, 10, 12⟩ "hi" "there" (some "s") none).1 "s"
      ≠ "Recent conversation summary:\n- User asked about: hi\n  Assistant helped with: there" :=
  ⟨⟨by decide, by decide⟩, rfl, by decide⟩

/-- C9 (amended): with no stored turns the summary is the fixed "no history"
sentinel; otherwise it renders the five most recent turns (of the at most 20
read) as bullet pairs of user and assistant excerpts truncated to 100
characters, with the ellipsis marker appended unconditionally. -/
theorem summarize_spec (st : MemStore) (sid : String) :
    (fetchSessionDesc st (some sid) = [] →
      summarize_conversation_history st sid = "No conversation history available.") ∧
    (fetchSessionDesc st (some sid) ≠ [] →
      summarize_conversation_history st sid
        = String.intercalate "\n"
            ("Recent conversation summary:" ::
              ((fetchSessionDesc st (some sid)).take 5).flatMap fun r =>
                bulletPair r.user_message r.assistant_response)) := by
  constructor
  · intro h
    simp [summarize_conversation_history, h]
  · intro h
    have hne : (fetchSessionDesc st (some sid)).take 20 ≠ [] := by
      intro hc
      rcases List.take_eq_nil_iff.mp hc with h0 | hl
      · exact absurd h0 (by decide)
      · exact h hl
    have h20 : ((fetchSessionDesc st (some sid)).take 20).isEmpty = false := by
      rcases hi : ((fetchSessionDesc st (some sid)).take 20).isEmpty with _ | _
      · rfl
      · exact absurd (List.isEmpty_iff.mp hi) hne
    unfold summarize_conversation_history
    simp only [h20, Bool.false_eq_true, if_false, List.take_take]
    have hmin : (5 : Nat) ⊓ 20 = 5 := by decide
    rw [hmin]

/-- C9 (witness): the digest shape evaluated on a concrete one-turn session
and the sentinel on the empty store. -/
theorem summarize_spec_wit :
    summarize_conversation_history
        (store_interaction emptyStore ⟨2026, 10, 12⟩ "hi" "there" (some "s") none).1 "s"
      = String.intercalate "\n"
          ("Recent conversation summary:" ::
            ((fetchSessionDesc
                (store_interaction emptyStore ⟨2026, 10, 12⟩ "hi" "there" (some "s") none).1
                (some "s")).take 5).flatMap fun r =>
              bulletPair r.user_message r.assistant_response) ∧
    summarize_conversation_history emptyStore "s" = "No conversation history available." :=
  ⟨(summarize_spec (store_interaction emptyStore ⟨2026, 10, 12⟩ "hi" "there" (some "s") none).1
      "s").2 (by decide),
   (summarize_spec emptyStore "s").1 rfl⟩

/-- C10: whenever the sanitized expression fails to evaluate, the calculator
catches its own failure and the dispatcher reports it as a success-flagged
result whose text carries "Calculation error" — never as an error-keyed
result — so the dispatcher-level success flag does not distinguish a failed
evaluation from a successful computation. -/
theorem calculator_failure_reports_success (expression e : String)
    (w f c d t : String → Except String String)
    (h : pyEval (sanitize_expression expression) = .error e) :
    execute_tool (builtin_tools w f c d t) "calculator" expression
      = .success ("Calculation error: " ++ e) ∧
    containsStr ("Calculation error: " ++ e) "Calculation error" ∧
    ∀ m, execute_tool (builtin_tools w f c d t) "calculator" expression ≠ .error m := by
  have hrun : _calculator expression = .ok ("Calculation error: " ++ e) := by
    simp [_calculator, h]
  have hlook : (builtin_tools w f c d t).lookup "calculator"
      = some ⟨_calculator, "Perform mathematical calculations", true⟩ := rfl
  have h1 : execute_tool (builtin_tools w f c d t) "calculator" expression
      = .success ("Calculation error: " ++ e) := by
    simp [execute_tool, hlook, hrun]
  refine ⟨h1, ⟨"", ": " ++ e, ?_⟩, fun m hm => by rw [h1] at hm; exact ToolResult.noConfusion hm⟩
  simp only [String.append_assoc]
  rfl

/-- C10 (witness): the sanitized form of "import os" fails to evaluate, and
the dispatcher reports the failure inside a success-flagged result. -/
theorem calculator_failure_reports_success_wit :
    execute_tool (builtin_tools okStub okStub okStub okStub okStub) "calculator" "import os"
      = .success ("Calculation error: " ++ "invalid syntax") :=
  (calculator_failure_reports_success "import os" "invalid syntax"
    okStub okStub okStub okStub okStub rfl).1
